import Mathlib

/-!
Verification of the cwaai-backend lead-qualification pipeline: a shallow
embedding of the sentiment scorer, the deterministic transcript classifier,
the regex-based name/email extraction, the fixed-window rate limiter, the
Vapi webhook event processor with its lead side-effect pipeline, and the
chat-turn handler.  JavaScript numbers are modelled as exact rationals,
strings as Lean strings or lists of characters, and the fallible external
SaaS calls (database, Telegram, Flutterwave) as explicitly injected
outcomes.  Every service wrapper in the source catches its own exceptions
and returns null/false, which the model reflects by total functions.
-/

/-- The apostrophe character (code 39), used to build transcript literals. -/
def apos : Char := Char.ofNat 39

/-- Lowercase every character, modelling JavaScript toLowerCase on ASCII text. -/
def lowerList (l : List Char) : List Char := l.map Char.toLower

/-- Whether the first list is a prefix of the second (Boolean test). -/
def isPrefOf : List Char → List Char → Bool
  | [], _ => true
  | _ :: _, [] => false
  | a :: as, b :: bs => a = b && isPrefOf as bs

/-- Whether needle occurs as a contiguous substring of hay, modelling
JavaScript String.prototype.includes. -/
def hasSubstr (hay needle : List Char) : Bool :=
  isPrefOf needle hay ||
    match hay with
    | [] => false
    | _ :: t => hasSubstr t needle

/-- Scan every start position of the text, left to right, and return the first
success of the matcher, modelling the leftmost-match rule of JavaScript
String.prototype.match. -/
def scanFor (f : List Char → Option (List Char)) : List Char → Option (List Char)
  | [] => f []
  | l@(_ :: t) =>
    match f l with
    | some r => some r
    | none => scanFor f t

/-! ## Sentiment analysis and the qualification scorer (openai.service) -/

/-- A per-message sentiment analysis.  The source interface restricts intent
and urgency to string unions; they are modelled as strings because the
scorer's lookups default unrecognized values to 0.5. -/
structure SentimentAnalysis where
  score : ℚ
  intent : String
  urgency : String
  keywords : List String
deriving DecidableEq

/-- The intent weight table of calculateQualificationScore; the source reads
intentScores[s.intent] with a fallback of 0.5 (no listed weight is falsy). -/
def intentScoreOf (intent : String) : ℚ :=
  if intent = "purchase" then 1.0
  else if intent = "demo" then 0.9
  else if intent = "pricing" then 0.8
  else if intent = "information" then 0.6
  else if intent = "support" then 0.5
  else if intent = "general" then 0.4
  else 0.5

/-- The urgency weight table, with the same 0.5 fallback. -/
def urgencyScoreOf (urgency : String) : ℚ :=
  if urgency = "high" then 1.0
  else if urgency = "medium" then 0.6
  else if urgency = "low" then 0.3
  else 0.5

/-- calculateQualificationScore from the OpenAI service: 0.5 on an empty
history, otherwise a clamped weighted sum of three averages. -/
def calculateQualificationScore (sentimentHistory : List SentimentAnalysis) : ℚ :=
  if sentimentHistory.length = 0 then 0.5 else
  let n : ℚ := sentimentHistory.length
  let avgSentiment := sentimentHistory.foldl (fun sum s => sum + s.score) 0 / n
  let avgIntentScore :=
    sentimentHistory.foldl (fun sum s => sum + intentScoreOf s.intent) 0 / n
  let avgUrgencyScore :=
    sentimentHistory.foldl (fun sum s => sum + urgencyScoreOf s.urgency) 0 / n
  let qualificationScore :=
    avgSentiment * 0.3 + avgIntentScore * 0.5 + avgUrgencyScore * 0.2
  min (max qualificationScore 0) 1

/-! ## Deterministic transcript heuristics (logs.routes) -/

/-- The qualifying keyword list of checkQualification. -/
def qualifyingKeywords : List (List Char) :=
  ["interested".data, "sign up".data, "buy".data, "purchase".data,
   "book".data, "yes".data]

/-- checkQualification: whether any qualifying keyword occurs in the
lowercased transcript. -/
def checkQualification (transcript : List Char) : Bool :=
  let lowerTranscript := lowerList transcript
  qualifyingKeywords.any (fun keyword => hasSubstr lowerTranscript keyword)

/-- The positive keyword list of calculateConfidence. -/
def positiveKeywords : List (List Char) :=
  ["interested".data, "yes".data, "definitely".data, "sure".data,
   "absolutely".data]

/-- The negative keyword list of calculateConfidence. -/
def negativeKeywords : List (List Char) :=
  ["no".data, "not interested".data, "maybe".data, "later".data]

/-- calculateConfidence: base 0.5, plus 0.1 per matched positive keyword,
minus 0.15 per matched negative keyword, clamped to [0, 1]. -/
def calculateConfidence (transcript : List Char) : ℚ :=
  let lowerTranscript := lowerList transcript
  let score : ℚ := 0.5
  let score := positiveKeywords.foldl
    (fun s keyword => if hasSubstr lowerTranscript keyword then s + 0.1 else s) score
  let score := negativeKeywords.foldl
    (fun s keyword => if hasSubstr lowerTranscript keyword then s - 0.15 else s) score
  max 0 (min 1 score)

/-- extractIntent: the ordered keyword classification of a transcript. -/
def extractIntent (transcript : List Char) : String :=
  let lowerTranscript := lowerList transcript
  if hasSubstr lowerTranscript "book".data ||
     hasSubstr lowerTranscript "reservation".data then "booking"
  else if hasSubstr lowerTranscript "price".data ||
     hasSubstr lowerTranscript "cost".data ||
     hasSubstr lowerTranscript "how much".data then "pricing_inquiry"
  else if hasSubstr lowerTranscript "interested".data ||
     hasSubstr lowerTranscript "sign up".data then "service_interest"
  else if hasSubstr lowerTranscript "support".data ||
     hasSubstr lowerTranscript "help".data then "support"
  else if hasSubstr lowerTranscript "cancel".data ||
     hasSubstr lowerTranscript "refund".data then "cancellation"
  else "general_inquiry"

/-! ## Regex-based name and email extraction (logs.routes) -/

/-- An ASCII letter: what the case-insensitive character class [a-z] accepts. -/
def isAsciiAlpha (c : Char) : Bool :=
  ('a' ≤ c && c ≤ 'z') || ('A' ≤ c && c ≤ 'Z')

/-- The ASCII whitespace characters matched by the regex class \s
(space, tab, line feed, carriage return, vertical tab, form feed). -/
def isJsSpace (c : Char) : Bool :=
  c = ' ' || c = Char.ofNat 9 || c = Char.ofNat 10 || c = Char.ofNat 13 ||
  c = Char.ofNat 11 || c = Char.ofNat 12

/-- Strip leading and trailing whitespace, modelling String.prototype.trim. -/
def trimWs (l : List Char) : List Char :=
  ((l.dropWhile isJsSpace).reverse.dropWhile isJsSpace).reverse

/-- Greedy parse of the capture group of the name patterns,
a one-or-two-word letter sequence: one maximal letter run, then optionally a
single whitespace and a second maximal letter run. -/
def captureWords (l : List Char) : Option (List Char) :=
  let w1 := l.takeWhile isAsciiAlpha
  if w1.isEmpty then none
  else
    match l.drop w1.length with
    | c :: rest =>
      if isJsSpace c then
        let w2 := rest.takeWhile isAsciiAlpha
        if w2.isEmpty then some w1 else some (w1 ++ c :: w2)
      else some w1
    | [] => some w1

/-- Match one name pattern at the current position: the lowercase literal must
be a case-insensitive prefix here, followed by the captured words. -/
def matchLitThenCapture (lit : List Char) (l : List Char) : Option (List Char) :=
  if isPrefOf lit (lowerList l) then captureWords (l.drop lit.length) else none

/-- The literal part of the first name pattern, my name is (...). -/
def namePat1 : List Char := "my name is ".data

/-- The literal part of the second name pattern, i + apostrophe + m (...). -/
def namePat2 : List Char := ['i', apos, 'm', ' ']

/-- The literal part of the third name pattern, this is (...). -/
def namePat3 : List Char := "this is ".data

/-- extractName: try the three ordered case-insensitive patterns over the
whole transcript, returning the trimmed first capture, or none. -/
def extractName (transcript : List Char) : Option (List Char) :=
  match scanFor (matchLitThenCapture namePat1) transcript with
  | some m => some (trimWs m)
  | none =>
    match scanFor (matchLitThenCapture namePat2) transcript with
    | some m => some (trimWs m)
    | none =>
      match scanFor (matchLitThenCapture namePat3) transcript with
      | some m => some (trimWs m)
      | none => none

/-- An ASCII letter or digit. -/
def isAsciiAlnum (c : Char) : Bool :=
  isAsciiAlpha c || ('0' ≤ c && c ≤ '9')

/-- The character class of the local and domain parts of the email regex. -/
def emailCls (c : Char) : Bool :=
  isAsciiAlnum c || c = '.' || c = '_' || c = '-'

/-- Split the domain run at the last dot that is followed by at least one
non-dot character: the backtracking of the greedy domain part of the email
regex keeps the longest domain whose tail is a nonempty dot-free run. -/
def splitAtLastDot : List Char → Option (List Char × List Char)
  | [] => none
  | c :: rest =>
    match splitAtLastDot rest with
    | some (pre, tld) => some (c :: pre, tld)
    | none =>
      if c = '.' then
        let t := rest.takeWhile (fun d => d ≠ '.')
        if t.isEmpty then none else some ([c], t)
      else none

/-- Match the email regex at the current position: a nonempty class run, an
at sign, and a domain run containing a dot with a nonempty tail. -/
def matchEmailAt (l : List Char) : Option (List Char) :=
  let localPart := l.takeWhile emailCls
  if localPart.isEmpty then none
  else
    match l.drop localPart.length with
    | c :: rest =>
      if c = '@' then
        let dom := rest.takeWhile emailCls
        match splitAtLastDot dom with
        | some (pre, tld) => some (localPart ++ '@' :: (pre ++ tld))
        | none => none
      else none
    | [] => none

/-- extractEmail: the leftmost match of the email regex, or none. -/
def extractEmail (transcript : List Char) : Option (List Char) :=
  scanFor matchEmailAt transcript

/-! ## Fixed-window rate limiter (rate-limit.middleware) -/

/-- One per-key entry of the in-memory rate-limit store. -/
structure RateLimitEntry where
  count : ℕ
  resetTime : ℕ
deriving DecidableEq

/-- The caller-supplied configuration of the rate limiter. -/
structure RateLimitOptions where
  windowMs : ℕ
  maxRequests : ℕ
deriving DecidableEq

/-- The outcome of one request through the middleware: pass to the next
handler, or a 429 rejection carrying the retryAfter hint in seconds. -/
inductive RateLimitOutcome where
  | nextHandler : RateLimitOutcome
  | tooMany : ℕ → RateLimitOutcome
deriving DecidableEq

/-- One request for a fixed client key: lazily reset an expired window,
increment the counter, and reject once the count exceeds the maximum, with
retryAfter the remaining window time in milliseconds divided by 1000 and
rounded up (Math.ceil).  Times are absolute milliseconds. -/
def rateLimitStep (options : RateLimitOptions) (prev : Option RateLimitEntry)
    (now : ℕ) : RateLimitOutcome × RateLimitEntry :=
  let e0 :=
    match prev with
    | some e =>
      if e.resetTime < now then RateLimitEntry.mk 0 (now + options.windowMs) else e
    | none => RateLimitEntry.mk 0 (now + options.windowMs)
  let e1 : RateLimitEntry := { e0 with count := e0.count + 1 }
  if e1.count > options.maxRequests then
    (RateLimitOutcome.tooMany ((e1.resetTime - now + 999) / 1000), e1)
  else
    (RateLimitOutcome.nextHandler, e1)

/-! ## Database rows and the side-effect world (supabase.service and friends)

The Supabase, Telegram and Flutterwave wrappers all catch their own
exceptions and return null/false on failure, so none of them ever throws
into a route handler; their observable effects are modelled as fields of a
single world state, and their fallible outcomes as an injected environment. -/

/-- A stored call record (the columns the webhook handlers touch). -/
structure CallRow where
  transcript : Option (List Char) := none
  status : Option String := none
  duration : Option ℤ := none
  audio_url : Option String := none
deriving DecidableEq

/-- A partial update of a call record; a none field is absent from the
update object (undefined is dropped at serialization) and keeps the old
value. -/
structure CallUpdates where
  transcript : Option (List Char) := none
  status : Option String := none
  duration : Option ℤ := none
  audio_url : Option String := none
deriving DecidableEq

/-- Apply a partial update to a call record. -/
def applyCallUpdates (r : CallRow) (u : CallUpdates) : CallRow :=
  { transcript := match u.transcript with | some v => some v | none => r.transcript,
    status := match u.status with | some v => some v | none => r.status,
    duration := match u.duration with | some v => some v | none => r.duration,
    audio_url := match u.audio_url with | some v => some v | none => r.audio_url }

/-- A stored webhook event row. -/
structure WebhookRow where
  id : ℕ
  event_type : String
  processed : Bool
  error_message : Option String
deriving DecidableEq

/-- A stored lead row (the columns the pipeline touches). -/
structure LeadRow where
  id : ℕ
  user_id : String
  call_id : String
  name : Option (List Char)
  email : Option (List Char)
  phone : Option String
  intent : String
  is_qualified : Bool
  confidence_score : ℚ
  payment_link : Option String
  payment_status : Option String
  notified : Bool
deriving DecidableEq

/-- The mutable world: database tables plus counters of the outbound
side-effect calls (Telegram notifications, Flutterwave link generations). -/
structure World where
  calls : String → Option CallRow
  leads : List LeadRow
  nextLeadId : ℕ
  webhookEvents : List WebhookRow
  nextEventId : ℕ
  notifyNewLeadCalls : ℕ
  notifyErrorCalls : ℕ
  paymentLinkCalls : ℕ
  notifyPaymentLinkCalls : ℕ

/-- The injected outcomes of the fallible external services: whether the
lead insert succeeds, what notifyNewLead returns (its Boolean result is
ignored by the caller), and the payment link, null on failure. -/
structure SaasEnv where
  saveLeadOk : Bool
  notifyOk : Bool
  paymentLink : Option String
deriving DecidableEq

/-- updateCall: partial update of the matching call row; an absent id is a
silent no-op. -/
def updateCall (w : World) (callId : String) (u : CallUpdates) : World :=
  { w with calls := fun k =>
      if k = callId then (w.calls k).map (fun r => applyCallUpdates r u)
      else w.calls k }

/-- saveWebhookEvent: insert the event row with processed = false and return
its fresh id. -/
def saveWebhookEvent (w : World) (eventType : String) : World × ℕ :=
  ({ w with
      webhookEvents := w.webhookEvents ++ [⟨w.nextEventId, eventType, false, none⟩],
      nextEventId := w.nextEventId + 1 },
   w.nextEventId)

/-- markWebhookProcessed: set processed = true and the error message (an
empty message is stored as null, modelling errorMessage or-else null). -/
def markWebhookProcessed (w : World) (eventId : ℕ)
    (errorMessage : Option String) : World :=
  { w with webhookEvents := w.webhookEvents.map (fun row =>
      if row.id = eventId then
        { row with
            processed := true,
            error_message :=
              match errorMessage with
              | some m => if m.isEmpty then none else some m
              | none => none }
      else row) }

/-- markLeadNotified: stamp the matching lead as notified. -/
def markLeadNotified (w : World) (leadId : ℕ) : World :=
  { w with leads := w.leads.map (fun l =>
      if l.id = leadId then { l with notified := true } else l) }

/-- updateLeadPayment: store the payment link and status on the matching lead. -/
def updateLeadPayment (w : World) (leadId : ℕ) (link : String)
    (status : String) : World :=
  { w with leads := w.leads.map (fun l =>
      if l.id = leadId then
        { l with payment_link := some link, payment_status := some status }
      else l) }

/-! ## Webhook event processing (logs.routes) -/

/-- The call payload of a Vapi webhook event (the fields the handlers read). -/
structure VapiCall where
  id : String
  metadata_userId : Option String
  transcript : Option (List Char)
  cost : Option ℚ
  recordingUrl : Option String
  customer_number : Option String

/-- A Vapi webhook event. -/
structure VapiWebhookEvent where
  type : String
  call : Option VapiCall
  message_transcript : Option (List Char)

/-- JavaScript truthiness of an optional string: present and nonempty. -/
def truthyStr : Option String → Bool
  | some s => !s.isEmpty
  | none => false

/-- The duration estimate of handleCallEnded: cost truthy gives
Math.round((cost / 0.01) * 60), otherwise the field is left undefined. -/
def durationEstimate : Option ℚ → Option ℤ
  | some c => if c = 0 then none else some (round (c / (0.01 : ℚ) * 60))
  | none => none

/-- extractAndSaveLead: classify the transcript, insert the lead, then run
the best-effort side effects — always notify on a saved lead, and generate a
payment link exactly for a qualified lead with both name and email.  Every
service call catches its own errors, so the function never throws; a failed
lead insert (null) returns early. -/
def extractAndSaveLead (env : SaasEnv) (userId : String) (callId : String)
    (transcript : List Char) (phoneNumber : Option String) (w : World) : World :=
  let intent := extractIntent transcript
  let isQualified := checkQualification transcript
  let confidence := calculateConfidence transcript
  let name := extractName transcript
  let email := extractEmail transcript
  if env.saveLeadOk then
    let leadId := w.nextLeadId
    let lead : LeadRow :=
      ⟨leadId, userId, callId, name, email, phoneNumber, intent, isQualified,
       confidence, none, none, false⟩
    let w1 := { w with leads := w.leads ++ [lead], nextLeadId := leadId + 1 }
    let w2 := { w1 with notifyNewLeadCalls := w1.notifyNewLeadCalls + 1 }
    let w3 := markLeadNotified w2 leadId
    if isQualified && name.isSome && email.isSome then
      let w4 := { w3 with paymentLinkCalls := w3.paymentLinkCalls + 1 }
      match env.paymentLink with
      | some link =>
        let w5 := updateLeadPayment w4 leadId link "pending"
        { w5 with notifyPaymentLinkCalls := w5.notifyPaymentLinkCalls + 1 }
      | none => w4
    else w3
  else w

/-- handleCallStarted: set the call in_progress; a missing call payload or a
falsy userId in the metadata returns without touching anything. -/
def handleCallStarted (ev : VapiWebhookEvent) (w : World) : World :=
  match ev.call with
  | none => w
  | some call =>
    match call.metadata_userId with
    | none => w
    | some uid =>
      if uid.isEmpty then w
      else updateCall w call.id { status := some "in_progress" }

/-- handleCallEnded: overwrite the call row with the transcript, answered
status, duration estimate and recording URL, then on a truthy transcript run
the lead pipeline. -/
def handleCallEnded (env : SaasEnv) (ev : VapiWebhookEvent) (w : World) : World :=
  match ev.call with
  | none => w
  | some call =>
    match call.metadata_userId with
    | none => w
    | some uid =>
      if uid.isEmpty then w
      else
        let w1 := updateCall w call.id
          { transcript := call.transcript,
            status := some "answered",
            duration := durationEstimate call.cost,
            audio_url := call.recordingUrl }
        match call.transcript with
        | some t =>
          if t.isEmpty then w1
          else extractAndSaveLead env uid call.id t call.customer_number w1
        | none => w1

/-- handleCallFailed: set the call missed and send the operator error
notification. -/
def handleCallFailed (ev : VapiWebhookEvent) (w : World) : World :=
  match ev.call with
  | none => w
  | some call =>
    match call.metadata_userId with
    | none => w
    | some uid =>
      if uid.isEmpty then w
      else
        let w1 := updateCall w call.id { status := some "missed" }
        { w1 with notifyErrorCalls := w1.notifyErrorCalls + 1 }

/-- handleTranscript: the transcript event is only logged. -/
def handleTranscript (_ev : VapiWebhookEvent) (w : World) : World := w

/-- The HTTP response of the webhook route. -/
structure WebhookHttpResponse where
  status : ℕ
  success : Bool
  error : Option String
deriving DecidableEq

/-- The inner try/switch of the webhook route: dispatch on the event type.
Every handler is total (all service wrappers swallow their errors), so the
dispatch always reports a successful processing outcome. -/
def dispatchEvent (env : SaasEnv) (ev : VapiWebhookEvent) (w : World) :
    World × Except String Unit :=
  if ev.type = "call.ended" then (handleCallEnded env ev w, Except.ok ())
  else if ev.type = "call.started" then (handleCallStarted ev w, Except.ok ())
  else if ev.type = "call.failed" then (handleCallFailed ev w, Except.ok ())
  else if ev.type = "transcript" then (handleTranscript ev w, Except.ok ())
  else (w, Except.ok ())

/-- The skeleton of the webhook route: store the event (saveWebhookEvent
returns null on a failed insert, it never throws), run the processing step
on the stored state, then mark the stored event processed — without an error
message on success, with the caught message on a processing error — and
respond 200 in both cases, the error branch carrying the detail in the body. -/
def webhookRouteCore (w : World) (saveOk : Bool) (eventType : String)
    (proc : World → World × Except String Unit) : World × WebhookHttpResponse :=
  let saved : Option ℕ := if saveOk then some w.nextEventId else none
  let w1 := if saveOk then (saveWebhookEvent w eventType).1 else w
  match proc w1 with
  | (w2, Except.ok _) =>
    let w3 :=
      match saved with
      | some i => markWebhookProcessed w2 i none
      | none => w2
    (w3, ⟨200, true, none⟩)
  | (w2, Except.error msg) =>
    let w3 :=
      match saved with
      | some i => markWebhookProcessed w2 i (some msg)
      | none => w2
    (w3, ⟨200, true, some msg⟩)

/-- The full POST /webhook/vapi handler on a delivered event. -/
def processVapiWebhook (env : SaasEnv) (saveOk : Bool) (ev : VapiWebhookEvent)
    (w : World) : World × WebhookHttpResponse :=
  webhookRouteCore w saveOk ev.type (dispatchEvent env ev)

/-! ## The chat turn handler (assistant.routes) -/

/-- One stored chat message. -/
structure ChatMessage where
  role : String
  content : String
deriving DecidableEq

/-- The JSON body the chat endpoint returns for one turn. -/
structure ChatTurnResponse where
  success : Bool
  response : String
  conversationId : String
  sessionId : String
  messageCount : ℕ
  sentiment_score : ℚ
  sentiment_intent : String
  sentiment_urgency : String
  qualificationScore : ℚ
  shouldCaptureLeadNow : Bool
deriving DecidableEq

/-- The chat turn handler after the AI reply and the sentiment analysis of
the current user message are in hand: append the user/assistant pair, and
compute the qualification score from the one-element history holding only
the current turn's sentiment. -/
def chatTurn (conversationHistory : List ChatMessage) (convId sessId : String)
    (message : String) (aiResponse : String) (sentiment : SentimentAnalysis)
    (userMetadataEmail : Option String) : ChatTurnResponse :=
  let newHistory := conversationHistory ++
    [⟨"user", message⟩, ⟨"assistant", aiResponse⟩]
  let qualificationScore := calculateQualificationScore [sentiment]
  let shouldCaptureLeadNow :=
    decide (qualificationScore > 0.7) && decide (newHistory.length ≥ 6) &&
      !truthyStr userMetadataEmail
  { success := true,
    response := aiResponse,
    conversationId := convId,
    sessionId := sessId,
    messageCount := newHistory.length,
    sentiment_score := sentiment.score,
    sentiment_intent := sentiment.intent,
    sentiment_urgency := sentiment.urgency,
    qualificationScore := qualificationScore,
    shouldCaptureLeadNow := shouldCaptureLeadNow }

/-! ## Helper lemmas -/

/-- Folding addition of a projection equals the initial value plus the sum of
the mapped list. -/
lemma foldl_add_map {α : Type} (f : α → ℚ) :
    ∀ (l : List α) (a : ℚ),
      l.foldl (fun sum x => sum + f x) a = a + (l.map f).sum
  | [], a => by simp
  | x :: t, a => by
    simp only [List.foldl_cons, List.map_cons, List.sum_cons, foldl_add_map f t]
    ring

/-- Folding a guarded addition of a constant counts the matching elements. -/
lemma foldl_if_add {α : Type} (p : α → Bool) (c : ℚ) :
    ∀ (l : List α) (a : ℚ),
      l.foldl (fun s k => if p k then s + c else s) a = a + c * (l.countP p)
  | [], a => by simp
  | x :: t, a => by
    simp only [List.foldl_cons, List.countP_cons, foldl_if_add p c t]
    by_cases h : p x <;> (simp [h]; try ring)

/-- Folding a guarded subtraction of a constant counts the matching elements. -/
lemma foldl_if_sub {α : Type} (p : α → Bool) (c : ℚ) :
    ∀ (l : List α) (a : ℚ),
      l.foldl (fun s k => if p k then s - c else s) a = a - c * (l.countP p)
  | [], a => by simp
  | x :: t, a => by
    simp only [List.foldl_cons, List.countP_cons, foldl_if_sub p c t]
    by_cases h : p x <;> (simp [h]; try ring)

/-- The mean of a projection over a history, as the specification words it. -/
def meanOf (f : SentimentAnalysis → ℚ) (h : List SentimentAnalysis) : ℚ :=
  (h.map f).sum / h.length

/-- C1: the qualification scorer returns 0.5 on an empty history; on a
non-empty history it returns the clamp to [0,1] of 0.3 times the mean
sentiment score plus 0.5 times the mean intent weight plus 0.2 times the
mean urgency weight; its value always lies in [0,1]; the saturating single
analysis scores 1 and the minimal single analysis scores 0.26. -/
theorem c1_qualification_scorer :
    calculateQualificationScore [] = 0.5 ∧
    (∀ h : List SentimentAnalysis, h ≠ [] →
      calculateQualificationScore h =
        min (max (0.3 * meanOf (fun s => s.score) h +
          0.5 * meanOf (fun s => intentScoreOf s.intent) h +
          0.2 * meanOf (fun s => urgencyScoreOf s.urgency) h) 0) 1) ∧
    (∀ h, 0 ≤ calculateQualificationScore h ∧ calculateQualificationScore h ≤ 1) ∧
    calculateQualificationScore [⟨1, "purchase", "high", []⟩] = 1 ∧
    calculateQualificationScore [⟨0, "general", "low", []⟩] = 0.26 := by
  refine ⟨by norm_num [calculateQualificationScore], ?_, ?_,
    by simp +decide [calculateQualificationScore, intentScoreOf, urgencyScoreOf]; norm_num,
    by simp +decide [calculateQualificationScore, intentScoreOf, urgencyScoreOf]; norm_num⟩
  · intro h hne
    have hn : h.length ≠ 0 := by simpa using hne
    simp only [calculateQualificationScore, meanOf, foldl_add_map, zero_add,
      if_neg hn]
    have harg :
        (h.map fun s => s.score).sum / (h.length : ℚ) * 0.3 +
          (h.map fun s => intentScoreOf s.intent).sum / (h.length : ℚ) * 0.5 +
          (h.map fun s => urgencyScoreOf s.urgency).sum / (h.length : ℚ) * 0.2 =
        0.3 * ((h.map fun s => s.score).sum / (h.length : ℚ)) +
          0.5 * ((h.map fun s => intentScoreOf s.intent).sum / (h.length : ℚ)) +
          0.2 * ((h.map fun s => urgencyScoreOf s.urgency).sum / (h.length : ℚ)) := by
      ring
    rw [harg]
  · intro h
    unfold calculateQualificationScore
    split
    · norm_num
    · exact ⟨le_min (le_max_right _ _) zero_le_one, min_le_right _ _⟩

/-- Witness for C1: the non-empty-history formula evaluated at a concrete
one-element history. -/
theorem c1_qualification_scorer_witness :
    ([⟨(0.9 : ℚ), "demo", "medium", []⟩] : List SentimentAnalysis) ≠ [] ∧
    calculateQualificationScore [⟨(0.9 : ℚ), "demo", "medium", []⟩] =
      min (max (0.3 * meanOf (fun s => s.score) [⟨(0.9 : ℚ), "demo", "medium", []⟩] +
        0.5 * meanOf (fun s => intentScoreOf s.intent) [⟨(0.9 : ℚ), "demo", "medium", []⟩] +
        0.2 * meanOf (fun s => urgencyScoreOf s.urgency) [⟨(0.9 : ℚ), "demo", "medium", []⟩]) 0) 1 :=
  ⟨by decide, c1_qualification_scorer.2.1 [⟨(0.9 : ℚ), "demo", "medium", []⟩] (by decide)⟩

/-- C3: for every transcript, the deterministic confidence equals the clamp
to [0,1] of 0.5 plus 0.1 per positive keyword occurring (case-insensitively)
in the transcript minus 0.15 per occurring negative keyword, each keyword
counted at most once. -/
theorem c3_confidence_formula (t : List Char) :
    calculateConfidence t =
      max 0 (min 1 (0.5 +
        0.1 * (positiveKeywords.countP (fun k => hasSubstr (lowerList t) k) : ℚ) -
        0.15 * (negativeKeywords.countP (fun k => hasSubstr (lowerList t) k) : ℚ))) := by
  simp only [calculateConfidence, foldl_if_add, foldl_if_sub]

/-- The transcript I'm interested, sign me up! (apostrophe spelled out). -/
def imText : List Char := ['I', apos] ++ "m interested, sign me up!".data

/-- The transcript no, not interested. -/
def notInterestedText : List Char := "no, not interested".data

/-- C2 counterexample: on I'm interested, sign me up! the confidence is 0.6,
not 0.7 (only the keyword interested matches; sign me up contains no
positive keyword), and on no, not interested it is 0.3, not 0 (one positive
hit interested and two negative hits no and not interested). -/
theorem c2_counterexample_confidence :
    calculateConfidence imText ≠ 0.7 ∧ calculateConfidence imText = 0.6 ∧
    calculateConfidence notInterestedText ≠ 0 ∧
    calculateConfidence notInterestedText = 0.3 := by
  have h1 : calculateConfidence imText = 0.6 := by
    simp +decide [calculateConfidence, positiveKeywords, negativeKeywords, List.foldl]
    norm_num
  have h2 : calculateConfidence notInterestedText = 0.3 := by
    simp +decide [calculateConfidence, positiveKeywords, negativeKeywords, List.foldl]
    norm_num
  exact ⟨by rw [h1]; norm_num, h1, by rw [h2]; norm_num, h2⟩

/-- C2 amended: the deterministic classifier on I'm interested, sign me up!
returns qualified = true with confidence 0.6 (base 0.5 plus one positive
hit), and on no, not interested returns confidence 0.3 (base 0.5 plus one
positive hit minus two negative hits), which the clamp leaves unchanged. -/
theorem c2_amended_classifier :
    checkQualification imText = true ∧ calculateConfidence imText = 0.6 ∧
    calculateConfidence notInterestedText = 0.3 := by
  refine ⟨by decide, ?_, ?_⟩
  · simp +decide [calculateConfidence, positiveKeywords, negativeKeywords, List.foldl]
    norm_num
  · simp +decide [calculateConfidence, positiveKeywords, negativeKeywords, List.foldl]
    norm_num

/-- C4: name extraction returns John Smith and Sarah on the two specification
inputs, returns none when no pattern matches anywhere in the transcript, and
email extraction returns a.b@example.co.uk on the specification input. -/
theorem c4_name_email_extraction :
    extractName "Hi, my name is John Smith".data = some "John Smith".data ∧
    extractName "this is Sarah".data = some "Sarah".data ∧
    (∀ t, scanFor (matchLitThenCapture namePat1) t = none →
      scanFor (matchLitThenCapture namePat2) t = none →
      scanFor (matchLitThenCapture namePat3) t = none →
      extractName t = none) ∧
    extractEmail "reach me at a.b@example.co.uk please".data =
      some "a.b@example.co.uk".data := by
  refine ⟨by decide, by decide, ?_, by decide⟩
  intro t h1 h2 h3
  simp [extractName, h1, h2, h3]

/-- Witness for C4: a transcript matching none of the three name patterns is
mapped to none. -/
theorem c4_name_email_extraction_witness :
    scanFor (matchLitThenCapture namePat1) "hello world".data = none ∧
    scanFor (matchLitThenCapture namePat2) "hello world".data = none ∧
    scanFor (matchLitThenCapture namePat3) "hello world".data = none ∧
    extractName "hello world".data = none :=
  ⟨by decide, by decide, by decide,
    c4_name_email_extraction.2.2.1 "hello world".data (by decide) (by decide) (by decide)⟩

/-- C9: the qualification score in the chat response is the scorer applied
to the one-element history holding only the current message's sentiment, and
is therefore independent of the stored conversation history. -/
theorem c9_chat_score_from_current_turn
    (history : List ChatMessage) (convId sessId message aiResponse : String)
    (sentiment : SentimentAnalysis) (userMetadataEmail : Option String) :
    (chatTurn history convId sessId message aiResponse sentiment
        userMetadataEmail).qualificationScore =
      calculateQualificationScore [sentiment] ∧
    ∀ history₂,
      (chatTurn history₂ convId sessId message aiResponse sentiment
          userMetadataEmail).qualificationScore =
        (chatTurn history convId sessId message aiResponse sentiment
            userMetadataEmail).qualificationScore :=
  ⟨rfl, fun _ => rfl⟩

/-- C5: with windowMs 1000 and maxRequests 3, four requests of one client
inside one window admit the first three and reject the fourth with
retryAfter 1 second, the rejected attempt still incrementing the counter to
4; once the window's resetTime has passed, the next access resets the entry
and a fifth request is admitted with a fresh count of 1. -/
theorem c5_rate_limiter (t1 t2 t3 t4 t5 : ℕ)
    (h12 : t1 ≤ t2) (h23 : t2 ≤ t3) (h34 : t3 ≤ t4)
    (h4 : t4 < t1 + 1000) (h5 : t1 + 1000 < t5) :
    rateLimitStep ⟨1000, 3⟩ none t1 = (RateLimitOutcome.nextHandler, ⟨1, t1 + 1000⟩) ∧
    rateLimitStep ⟨1000, 3⟩ (some ⟨1, t1 + 1000⟩) t2 =
      (RateLimitOutcome.nextHandler, ⟨2, t1 + 1000⟩) ∧
    rateLimitStep ⟨1000, 3⟩ (some ⟨2, t1 + 1000⟩) t3 =
      (RateLimitOutcome.nextHandler, ⟨3, t1 + 1000⟩) ∧
    rateLimitStep ⟨1000, 3⟩ (some ⟨3, t1 + 1000⟩) t4 =
      (RateLimitOutcome.tooMany 1, ⟨4, t1 + 1000⟩) ∧
    rateLimitStep ⟨1000, 3⟩ (some ⟨4, t1 + 1000⟩) t5 =
      (RateLimitOutcome.nextHandler, ⟨1, t5 + 1000⟩) := by
  have hn2 : ¬ (t1 + 1000 < t2) := by omega
  have hn3 : ¬ (t1 + 1000 < t3) := by omega
  have hn4 : ¬ (t1 + 1000 < t4) := by omega
  have hretry : (t1 + 1000 - t4 + 999) / 1000 = 1 := by omega
  refine ⟨by simp [rateLimitStep], ?_, ?_, ?_, ?_⟩
  · simp [rateLimitStep, hn2]
  · simp [rateLimitStep, hn3]
  · simp [rateLimitStep, hn4, hretry]
  · simp [rateLimitStep, h5]

/-- Witness for C5: the five-request scenario at concrete times 0, 0, 0, 0
and 2000 milliseconds. -/
theorem c5_rate_limiter_witness :
    rateLimitStep ⟨1000, 3⟩ none 0 = (RateLimitOutcome.nextHandler, ⟨1, 1000⟩) ∧
    rateLimitStep ⟨1000, 3⟩ (some ⟨1, 1000⟩) 0 = (RateLimitOutcome.nextHandler, ⟨2, 1000⟩) ∧
    rateLimitStep ⟨1000, 3⟩ (some ⟨2, 1000⟩) 0 = (RateLimitOutcome.nextHandler, ⟨3, 1000⟩) ∧
    rateLimitStep ⟨1000, 3⟩ (some ⟨3, 1000⟩) 0 = (RateLimitOutcome.tooMany 1, ⟨4, 1000⟩) ∧
    rateLimitStep ⟨1000, 3⟩ (some ⟨4, 1000⟩) 2000 = (RateLimitOutcome.nextHandler, ⟨1, 3000⟩) :=
  c5_rate_limiter 0 0 0 0 2000 (by omega) (by omega) (by omega) (by omega) (by omega)

/-- C6: the webhook route responds 200 on every delivered event — also when
the processing step reports an error, in which case the response still
carries success with the error detail and the stored event row is marked
processed with that message.  The outer 500 branch of the source is
unreachable for a delivered event because saveWebhookEvent and
markWebhookProcessed both swallow their own exceptions. -/
theorem c6_webhook_always_200 (w : World) (ty : String)
    (proc : World → World × Except String Unit) :
    (∀ saveOk, (webhookRouteCore w saveOk ty proc).2.status = 200) ∧
    (∀ msg w2, proc (saveWebhookEvent w ty).1 = (w2, Except.error msg) →
      (webhookRouteCore w true ty proc).2 = ⟨200, true, some msg⟩) ∧
    (∀ msg w2, proc (saveWebhookEvent w ty).1 = (w2, Except.error msg) →
      msg ≠ "" → w2.webhookEvents = (saveWebhookEvent w ty).1.webhookEvents →
      WebhookRow.mk w.nextEventId ty true (some msg) ∈
        (webhookRouteCore w true ty proc).1.webhookEvents) := by
  refine ⟨?_, ?_, ?_⟩
  · intro saveOk
    simp only [webhookRouteCore]
    split <;> rfl
  · intro msg w2 hp
    simp only [webhookRouteCore, reduceIte]
    rw [hp]
  · intro msg w2 hp hne hframe
    have hemp : msg.isEmpty = false := by
      cases he : msg.isEmpty
      · rfl
      · exact absurd ((String.isEmpty_iff msg).mp he) hne
    simp only [webhookRouteCore, reduceIte]
    rw [hp]
    simp only [markWebhookProcessed, hframe, saveWebhookEvent, List.map_append]
    simp [hemp]

/-- The empty world: no calls, leads or events. -/
def emptyWorld : World := ⟨fun _ => none, [], 0, [], 0, 0, 0, 0, 0⟩

/-- Witness for C6: a processing step that fails with the message boom on
the empty world. -/
theorem c6_webhook_always_200_witness :
    (webhookRouteCore emptyWorld true "call.ended"
      (fun u => (u, Except.error "boom"))).2.status = 200 ∧
    (webhookRouteCore emptyWorld true "call.ended"
      (fun u => (u, Except.error "boom"))).2 = ⟨200, true, some "boom"⟩ ∧
    WebhookRow.mk 0 "call.ended" true (some "boom") ∈
      (webhookRouteCore emptyWorld true "call.ended"
        (fun u => (u, Except.error "boom"))).1.webhookEvents :=
  ⟨(c6_webhook_always_200 emptyWorld "call.ended" _).1 true,
   (c6_webhook_always_200 emptyWorld "call.ended" _).2.1 "boom" _ rfl,
   (c6_webhook_always_200 emptyWorld "call.ended" _).2.2 "boom" _ rfl (by decide) rfl⟩

/-- The lead pipeline never touches the calls table. -/
lemma extractAndSaveLead_calls (env : SaasEnv) (uid cid : String) (t : List Char)
    (ph : Option String) (w : World) :
    (extractAndSaveLead env uid cid t ph w).calls = w.calls := by
  unfold extractAndSaveLead
  by_cases hs : env.saveLeadOk <;> simp [hs, markLeadNotified, updateLeadPayment]
  split
  · cases hp : env.paymentLink <;> simp [hp]
  · rfl

/-- The lead pipeline never touches the webhook events table. -/
lemma extractAndSaveLead_webhookEvents (env : SaasEnv) (uid cid : String)
    (t : List Char) (ph : Option String) (w : World) :
    (extractAndSaveLead env uid cid t ph w).webhookEvents = w.webhookEvents := by
  unfold extractAndSaveLead
  by_cases hs : env.saveLeadOk <;> simp [hs, markLeadNotified, updateLeadPayment]
  split
  · cases hp : env.paymentLink <;> simp [hp]
  · rfl

/-- The lead pipeline never touches the event id counter. -/
lemma extractAndSaveLead_nextEventId (env : SaasEnv) (uid cid : String)
    (t : List Char) (ph : Option String) (w : World) :
    (extractAndSaveLead env uid cid t ph w).nextEventId = w.nextEventId := by
  unfold extractAndSaveLead
  by_cases hs : env.saveLeadOk <;> simp [hs, markLeadNotified, updateLeadPayment]
  split
  · cases hp : env.paymentLink <;> simp [hp]
  · rfl

/-- The dispatch of the webhook route never reports a processing error: every
handler is total because the service wrappers swallow their own failures. -/
lemma dispatchEvent_ok (env : SaasEnv) (ev : VapiWebhookEvent) (w : World) :
    (dispatchEvent env ev w).2 = Except.ok () := by
  unfold dispatchEvent
  split_ifs <;> rfl

/-- The full webhook route on any event: store, dispatch, mark processed,
respond 200 with no error detail. -/
lemma processVapiWebhook_eq (env : SaasEnv) (ev : VapiWebhookEvent) (w : World) :
    processVapiWebhook env true ev w =
      (markWebhookProcessed (dispatchEvent env ev (saveWebhookEvent w ev.type).1).1
        w.nextEventId none,
       ⟨200, true, none⟩) := by
  unfold processVapiWebhook
  simp only [webhookRouteCore, reduceIte]
  rcases hd : dispatchEvent env ev (saveWebhookEvent w ev.type).1 with ⟨w2, e⟩
  have hok := dispatchEvent_ok env ev (saveWebhookEvent w ev.type).1
  rw [hd] at hok
  simp only at hok
  subst hok
  rfl

/-- C10: a call lifecycle event whose call payload carries no userId in its
metadata mutates nothing: calls, leads and every outbound side-effect
counter are unchanged, while the event row itself is still stored and
marked processed and the route responds 200. -/
theorem c10_missing_userId_frame (env : SaasEnv) (ev : VapiWebhookEvent)
    (c : VapiCall) (w : World)
    (hty : ev.type = "call.started" ∨ ev.type = "call.ended" ∨ ev.type = "call.failed")
    (hcall : ev.call = some c) (huid : c.metadata_userId = none) :
    (processVapiWebhook env true ev w).1.calls = w.calls ∧
    (processVapiWebhook env true ev w).1.leads = w.leads ∧
    (processVapiWebhook env true ev w).1.notifyNewLeadCalls = w.notifyNewLeadCalls ∧
    (processVapiWebhook env true ev w).1.paymentLinkCalls = w.paymentLinkCalls ∧
    (processVapiWebhook env true ev w).1.notifyPaymentLinkCalls = w.notifyPaymentLinkCalls ∧
    (processVapiWebhook env true ev w).1.notifyErrorCalls = w.notifyErrorCalls ∧
    WebhookRow.mk w.nextEventId ev.type true none ∈
      (processVapiWebhook env true ev w).1.webhookEvents ∧
    (processVapiWebhook env true ev w).1.webhookEvents.length =
      w.webhookEvents.length + 1 ∧
    (processVapiWebhook env true ev w).2 = ⟨200, true, none⟩ := by
  have hnoop : (dispatchEvent env ev (saveWebhookEvent w ev.type).1).1 =
      (saveWebhookEvent w ev.type).1 := by
    rcases hty with h | h | h <;>
      simp [dispatchEvent, h, handleCallStarted, handleCallEnded, handleCallFailed,
        hcall, huid]
  rw [processVapiWebhook_eq, hnoop]
  refine ⟨rfl, rfl, rfl, rfl, rfl, rfl, ?_, ?_, rfl⟩
  · simp only [markWebhookProcessed, saveWebhookEvent, List.map_append]
    refine List.mem_append_right _ ?_
    simp
  · simp [markWebhookProcessed, saveWebhookEvent]

/-- A call payload with no userId in its metadata. -/
def sampleCallNoUser : VapiCall := ⟨"call1", none, none, none, none, none⟩

/-- A call.started event over the userId-less call payload. -/
def sampleEventNoUser : VapiWebhookEvent := ⟨"call.started", some sampleCallNoUser, none⟩

/-- Witness for C10: the userId-less call.started event on the empty world. -/
theorem c10_missing_userId_frame_witness :
    (processVapiWebhook ⟨true, true, none⟩ true sampleEventNoUser emptyWorld).1.calls
      = emptyWorld.calls ∧
    (processVapiWebhook ⟨true, true, none⟩ true sampleEventNoUser emptyWorld).1.leads
      = emptyWorld.leads ∧
    (processVapiWebhook ⟨true, true, none⟩ true sampleEventNoUser
      emptyWorld).1.notifyNewLeadCalls = emptyWorld.notifyNewLeadCalls ∧
    (processVapiWebhook ⟨true, true, none⟩ true sampleEventNoUser
      emptyWorld).1.paymentLinkCalls = emptyWorld.paymentLinkCalls ∧
    (processVapiWebhook ⟨true, true, none⟩ true sampleEventNoUser
      emptyWorld).1.notifyPaymentLinkCalls = emptyWorld.notifyPaymentLinkCalls ∧
    (processVapiWebhook ⟨true, true, none⟩ true sampleEventNoUser
      emptyWorld).1.notifyErrorCalls = emptyWorld.notifyErrorCalls ∧
    WebhookRow.mk 0 "call.started" true none ∈
      (processVapiWebhook ⟨true, true, none⟩ true sampleEventNoUser
        emptyWorld).1.webhookEvents ∧
    (processVapiWebhook ⟨true, true, none⟩ true sampleEventNoUser
      emptyWorld).1.webhookEvents.length = emptyWorld.webhookEvents.length + 1 ∧
    (processVapiWebhook ⟨true, true, none⟩ true sampleEventNoUser emptyWorld).2
      = ⟨200, true, none⟩ :=
  c10_missing_userId_frame ⟨true, true, none⟩ sampleEventNoUser sampleCallNoUser
    emptyWorld (Or.inl rfl) rfl rfl

/-- handleCallEnded leaves the webhook events table unchanged. -/
lemma handleCallEnded_webhookEvents (env : SaasEnv) (ev : VapiWebhookEvent)
    (w : World) : (handleCallEnded env ev w).webhookEvents = w.webhookEvents := by
  unfold handleCallEnded
  cases hc : ev.call with
  | none => rfl
  | some call =>
    cases hu : call.metadata_userId with
    | none => simp [hu]
    | some uid =>
      cases ht : call.transcript <;>
        by_cases he : uid.isEmpty <;>
          simp [hu, ht, he, updateCall, extractAndSaveLead_webhookEvents] <;>
            (try split_ifs) <;>
              (try simp [extractAndSaveLead_webhookEvents, updateCall])

/-- handleCallEnded leaves the event id counter unchanged. -/
lemma handleCallEnded_nextEventId (env : SaasEnv) (ev : VapiWebhookEvent)
    (w : World) : (handleCallEnded env ev w).nextEventId = w.nextEventId := by
  unfold handleCallEnded
  cases hc : ev.call with
  | none => rfl
  | some call =>
    cases hu : call.metadata_userId with
    | none => simp [hu]
    | some uid =>
      cases ht : call.transcript <;>
        by_cases he : uid.isEmpty <;>
          simp [hu, ht, he, updateCall, extractAndSaveLead_nextEventId] <;>
            (try split_ifs) <;>
              (try simp [extractAndSaveLead_nextEventId, updateCall])

/-- handleCallEnded overwrites the matching call row with the transcript,
answered status, duration estimate and recording URL. -/
lemma handleCallEnded_calls_at (env : SaasEnv) (ev : VapiWebhookEvent)
    (c : VapiCall) (w : World) (uid : String)
    (hcall : ev.call = some c) (huid : c.metadata_userId = some uid)
    (hne : uid.isEmpty = false) :
    (handleCallEnded env ev w).calls c.id =
      (w.calls c.id).map (fun r => applyCallUpdates r
        ⟨c.transcript, some "answered", durationEstimate c.cost, c.recordingUrl⟩) := by
  unfold handleCallEnded
  rw [hcall]
  simp only [huid, hne, Bool.false_eq_true, if_false]
  cases ht : c.transcript with
  | none => simp [updateCall, ht]
  | some t =>
    by_cases hte : t.isEmpty <;>
      simp [ht, hte, extractAndSaveLead_calls, updateCall]

/-- C7: processing a call.ended event for an existing call record sets its
status to answered and persists the transcript, the cost-derived duration
estimate and the recording URL; replaying the same event leaves the status
answered (the update is an overwrite) and leaves two stored webhook event
rows, each marked processed. -/
theorem c7_call_ended_replay_idempotent
    (env env₂ : SaasEnv) (ev : VapiWebhookEvent) (c : VapiCall) (w : World)
    (r0 : CallRow) (uid : String) (ts : List Char) (q : ℚ) (url : String)
    (hty : ev.type = "call.ended") (hcall : ev.call = some c)
    (huid : c.metadata_userId = some uid) (hne : uid.isEmpty = false)
    (hts : c.transcript = some ts) (hcost : c.cost = some q) (hq : q ≠ 0)
    (hurl : c.recordingUrl = some url)
    (hrow : w.calls c.id = some r0) (hev : w.webhookEvents = []) :
    ∃ r1 r2 : CallRow,
      (processVapiWebhook env true ev w).1.calls c.id = some r1 ∧
      r1.status = some "answered" ∧ r1.transcript = some ts ∧
      r1.duration = some (round (q / (0.01 : ℚ) * 60)) ∧ r1.audio_url = some url ∧
      (processVapiWebhook env₂ true ev
        (processVapiWebhook env true ev w).1).1.calls c.id = some r2 ∧
      r2.status = some "answered" ∧ r2.transcript = some ts ∧
      r2.duration = some (round (q / (0.01 : ℚ) * 60)) ∧ r2.audio_url = some url ∧
      (processVapiWebhook env₂ true ev
        (processVapiWebhook env true ev w).1).1.webhookEvents.length = 2 ∧
      (∀ row ∈ (processVapiWebhook env₂ true ev
        (processVapiWebhook env true ev w).1).1.webhookEvents,
        row.processed = true) ∧
      (processVapiWebhook env true ev w).2 = ⟨200, true, none⟩ ∧
      (processVapiWebhook env₂ true ev
        (processVapiWebhook env true ev w).1).2 = ⟨200, true, none⟩ := by
  have hdisp : ∀ (env' : SaasEnv) (u' : World),
      (dispatchEvent env' ev u').1 = handleCallEnded env' ev u' := by
    intro env' u'
    simp [dispatchEvent, hty]
  set u : CallUpdates :=
    ⟨c.transcript, some "answered", durationEstimate c.cost, c.recordingUrl⟩ with hu
  have hfields : ∀ r : CallRow,
      (applyCallUpdates r u).status = some "answered" ∧
      (applyCallUpdates r u).transcript = some ts ∧
      (applyCallUpdates r u).duration = some (round (q / (0.01 : ℚ) * 60)) ∧
      (applyCallUpdates r u).audio_url = some url := by
    intro r
    refine ⟨rfl, ?_, ?_, ?_⟩
    · simp [applyCallUpdates, hu, hts]
    · simp [applyCallUpdates, hu, hcost, durationEstimate, hq]
    · simp [applyCallUpdates, hu, hurl]
  have hcalls1 : (processVapiWebhook env true ev w).1.calls c.id =
      some (applyCallUpdates r0 u) := by
    rw [processVapiWebhook_eq]
    show (dispatchEvent env ev (saveWebhookEvent w ev.type).1).1.calls c.id = _
    rw [hdisp, handleCallEnded_calls_at env ev c _ uid hcall huid hne]
    show (w.calls c.id).map _ = _
    rw [hrow]
    rfl
  have hev1 : (processVapiWebhook env true ev w).1.webhookEvents =
      [⟨w.nextEventId, ev.type, true, none⟩] := by
    rw [processVapiWebhook_eq]
    show ((dispatchEvent env ev
      (saveWebhookEvent w ev.type).1).1.webhookEvents.map _) = _
    rw [hdisp, handleCallEnded_webhookEvents]
    show ((w.webhookEvents ++ [WebhookRow.mk w.nextEventId ev.type false none]).map _) = _
    rw [hev]
    simp [markWebhookProcessed]
  have hnid1 : (processVapiWebhook env true ev w).1.nextEventId =
      w.nextEventId + 1 := by
    rw [processVapiWebhook_eq]
    show (dispatchEvent env ev (saveWebhookEvent w ev.type).1).1.nextEventId = _
    rw [hdisp, handleCallEnded_nextEventId]
    rfl
  have hcalls2 : (processVapiWebhook env₂ true ev
      (processVapiWebhook env true ev w).1).1.calls c.id =
      some (applyCallUpdates (applyCallUpdates r0 u) u) := by
    rw [processVapiWebhook_eq]
    show (dispatchEvent env₂ ev
      (saveWebhookEvent (processVapiWebhook env true ev w).1 ev.type).1).1.calls c.id = _
    rw [hdisp, handleCallEnded_calls_at env₂ ev c _ uid hcall huid hne]
    show ((processVapiWebhook env true ev w).1.calls c.id).map _ = _
    rw [hcalls1]
    rfl
  have hev2 : (processVapiWebhook env₂ true ev
      (processVapiWebhook env true ev w).1).1.webhookEvents =
      [⟨w.nextEventId, ev.type, true, none⟩,
       ⟨w.nextEventId + 1, ev.type, true, none⟩] := by
    rw [processVapiWebhook_eq]
    show ((dispatchEvent env₂ ev
      (saveWebhookEvent (processVapiWebhook env true ev w).1 ev.type).1).1.webhookEvents.map _) = _
    rw [hdisp, handleCallEnded_webhookEvents]
    show (((processVapiWebhook env true ev w).1.webhookEvents ++
      [WebhookRow.mk (processVapiWebhook env true ev w).1.nextEventId ev.type false none]).map _) = _
    rw [hev1, hnid1]
    simp [markWebhookProcessed, hnid1]
  refine ⟨applyCallUpdates r0 u, applyCallUpdates (applyCallUpdates r0 u) u,
    hcalls1, (hfields r0).1, (hfields r0).2.1, (hfields r0).2.2.1, (hfields r0).2.2.2,
    hcalls2, (hfields _).1, (hfields _).2.1, (hfields _).2.2.1, (hfields _).2.2.2,
    ?_, ?_, ?_, ?_⟩
  · rw [hev2]
    rfl
  · intro row hrow2
    rw [hev2] at hrow2
    simp only [List.mem_cons, List.not_mem_nil, or_false] at hrow2
    rcases hrow2 with h | h <;> (subst h; rfl)
  · rw [processVapiWebhook_eq]
  · rw [processVapiWebhook_eq]

/-- A concrete ended call with userId, transcript, cost and recording URL. -/
def c7Call : VapiCall :=
  ⟨"call1", some "user1", some "hello".data, some 1, some "rec1", some "12345"⟩

/-- A concrete call.ended event over that call. -/
def c7Event : VapiWebhookEvent := ⟨"call.ended", some c7Call, none⟩

/-- A world holding exactly the call record the event refers to. -/
def c7World : World :=
  ⟨fun k => if k = "call1" then some ⟨none, none, none, none⟩ else none,
   [], 0, [], 0, 0, 0, 0, 0⟩

/-- Witness for C7: the concrete call.ended event replayed twice on the
concrete world. -/
theorem c7_call_ended_replay_idempotent_witness :
    ∃ r1 r2 : CallRow,
      (processVapiWebhook ⟨true, true, none⟩ true c7Event c7World).1.calls
        c7Call.id = some r1 ∧
      r1.status = some "answered" ∧ r1.transcript = some "hello".data ∧
      r1.duration = some (round ((1 : ℚ) / (0.01 : ℚ) * 60)) ∧
      r1.audio_url = some "rec1" ∧
      (processVapiWebhook ⟨true, true, none⟩ true c7Event
        (processVapiWebhook ⟨true, true, none⟩ true c7Event c7World).1).1.calls
          c7Call.id = some r2 ∧
      r2.status = some "answered" ∧ r2.transcript = some "hello".data ∧
      r2.duration = some (round ((1 : ℚ) / (0.01 : ℚ) * 60)) ∧
      r2.audio_url = some "rec1" ∧
      (processVapiWebhook ⟨true, true, none⟩ true c7Event
        (processVapiWebhook ⟨true, true, none⟩ true c7Event
          c7World).1).1.webhookEvents.length = 2 ∧
      (∀ row ∈ (processVapiWebhook ⟨true, true, none⟩ true c7Event
        (processVapiWebhook ⟨true, true, none⟩ true c7Event
          c7World).1).1.webhookEvents, row.processed = true) ∧
      (processVapiWebhook ⟨true, true, none⟩ true c7Event c7World).2 =
        ⟨200, true, none⟩ ∧
      (processVapiWebhook ⟨true, true, none⟩ true c7Event
        (processVapiWebhook ⟨true, true, none⟩ true c7Event c7World).1).2 =
        ⟨200, true, none⟩ :=
  c7_call_ended_replay_idempotent ⟨true, true, none⟩ ⟨true, true, none⟩
    c7Event c7Call c7World ⟨none, none, none, none⟩ "user1" "hello".data 1 "rec1"
    rfl rfl rfl (by decide) rfl rfl (by norm_num) rfl (by decide) rfl

/-- C8: once the lead insert succeeds, the notification is always attempted;
the payment link is attempted exactly when the lead is qualified and both a
name and an email were extracted; the payment attempt does not depend on the
notification outcome; the saved lead stays in the table whatever the
side-effect outcomes; and the webhook response is the same 200 regardless of
the side-effect environment. -/
theorem c8_lead_side_effects (env : SaasEnv) (uid cid : String) (t : List Char)
    (ph : Option String) (w : World) (hsave : env.saveLeadOk = true) :
    (extractAndSaveLead env uid cid t ph w).notifyNewLeadCalls =
      w.notifyNewLeadCalls + 1 ∧
    (extractAndSaveLead env uid cid t ph w).paymentLinkCalls =
      w.paymentLinkCalls +
        (if checkQualification t && (extractName t).isSome && (extractEmail t).isSome
         then 1 else 0) ∧
    (∀ b, extractAndSaveLead ⟨env.saveLeadOk, b, env.paymentLink⟩ uid cid t ph w =
      extractAndSaveLead env uid cid t ph w) ∧
    (∃ l ∈ (extractAndSaveLead env uid cid t ph w).leads,
      l.id = w.nextLeadId ∧ l.user_id = uid ∧ l.call_id = cid ∧
      l.name = extractName t ∧ l.email = extractEmail t ∧
      l.is_qualified = checkQualification t ∧
      l.confidence_score = calculateConfidence t) ∧
    (∀ (env' : SaasEnv) (ev : VapiWebhookEvent), ev.type = "call.ended" →
      (processVapiWebhook env' true ev w).2 = ⟨200, true, none⟩) := by
  refine ⟨?_, ?_, fun _ => rfl, ?_, ?_⟩
  · simp only [extractAndSaveLead, hsave, reduceIte]
    split_ifs with hq
    · cases hp : env.paymentLink <;>
        simp [hp, markLeadNotified, updateLeadPayment]
    · simp [markLeadNotified]
  · simp only [extractAndSaveLead, hsave, reduceIte]
    split_ifs with hq
    · cases hp : env.paymentLink <;>
        simp [hp, markLeadNotified, updateLeadPayment]
    · simp [markLeadNotified]
  · simp only [extractAndSaveLead, hsave, reduceIte]
    split_ifs with hq
    · cases hp : env.paymentLink with
      | some link =>
        refine ⟨⟨w.nextLeadId, uid, cid, extractName t, extractEmail t, ph,
          extractIntent t, checkQualification t, calculateConfidence t,
          some link, some "pending", true⟩, ?_, rfl, rfl, rfl, rfl, rfl, rfl, rfl⟩
        simp only [markLeadNotified, updateLeadPayment, hp, List.map_append]
        refine List.mem_append_right _ ?_
        simp
      | none =>
        refine ⟨⟨w.nextLeadId, uid, cid, extractName t, extractEmail t, ph,
          extractIntent t, checkQualification t, calculateConfidence t,
          none, none, true⟩, ?_, rfl, rfl, rfl, rfl, rfl, rfl, rfl⟩
        simp only [markLeadNotified, hp, List.map_append]
        refine List.mem_append_right _ ?_
        simp
    · refine ⟨⟨w.nextLeadId, uid, cid, extractName t, extractEmail t, ph,
        extractIntent t, checkQualification t, calculateConfidence t,
        none, none, true⟩, ?_, rfl, rfl, rfl, rfl, rfl, rfl, rfl⟩
      simp only [markLeadNotified, List.map_append]
      refine List.mem_append_right _ ?_
      simp
  · intro env' ev hty'
    rw [processVapiWebhook_eq]

/-- Witness for C8: the pipeline on a concrete transcript with a failing
notification and a failing payment-link service. -/
theorem c8_lead_side_effects_witness :
    (extractAndSaveLead ⟨true, false, none⟩ "u1" "c1" "yes my name is Ann".data
      (some "123") emptyWorld).notifyNewLeadCalls =
        emptyWorld.notifyNewLeadCalls + 1 ∧
    (extractAndSaveLead ⟨true, false, none⟩ "u1" "c1" "yes my name is Ann".data
      (some "123") emptyWorld).paymentLinkCalls =
        emptyWorld.paymentLinkCalls +
          (if checkQualification "yes my name is Ann".data &&
              (extractName "yes my name is Ann".data).isSome &&
              (extractEmail "yes my name is Ann".data).isSome
           then 1 else 0) ∧
    (∀ b, extractAndSaveLead ⟨true, b, none⟩ "u1" "c1" "yes my name is Ann".data
      (some "123") emptyWorld =
      extractAndSaveLead ⟨true, false, none⟩ "u1" "c1" "yes my name is Ann".data
        (some "123") emptyWorld) ∧
    (∃ l ∈ (extractAndSaveLead ⟨true, false, none⟩ "u1" "c1"
        "yes my name is Ann".data (some "123") emptyWorld).leads,
      l.id = emptyWorld.nextLeadId ∧ l.user_id = "u1" ∧ l.call_id = "c1" ∧
      l.name = extractName "yes my name is Ann".data ∧
      l.email = extractEmail "yes my name is Ann".data ∧
      l.is_qualified = checkQualification "yes my name is Ann".data ∧
      l.confidence_score = calculateConfidence "yes my name is Ann".data) ∧
    (∀ (env' : SaasEnv) (ev : VapiWebhookEvent), ev.type = "call.ended" →
      (processVapiWebhook env' true ev emptyWorld).2 = ⟨200, true, none⟩) :=
  c8_lead_side_effects ⟨true, false, none⟩ "u1" "c1" "yes my name is Ann".data
    (some "123") emptyWorld rfl
